import Mathlib

/-!
Verification development for the pulsar-live-ui command-line tool.

The embedding models, from the source:
  - `src/pulsar_listen/types.py` : the `StreamMessage` record and its
    `decode_content` helper (UTF-8 decoding with a placeholder fallback);
  - `src/pulsar_listen/client.py` : the admin query facade
    (`get_tenants`, `get_namespaces`, `get_topics`), the auth-header
    construction, and the bounded reader session `create_listener` with
    its inner `message_generator` loop;
  - `src/main.py` : configuration merging (`get_config`), the `topics`
    argument default, and the process exit-code logic of `main`.

External effects are modelled explicitly: an HTTP call becomes a value of
`HttpResult` (transport error, or a response with a status and an optional
JSON body); a broker read attempt becomes a value of `ReadResult` (a raw
message, or a raised timeout/error); Python exception control flow becomes
the `Outcome` type (normal return, raised `Exception`, raised
`KeyboardInterrupt`), and the resource handling of `create_listener`
becomes a trace of `Event`s produced by the try/except/finally structure
of the source.
-/

namespace PulsarLive

/-! ## Data model (src/pulsar_listen/types.py) -/

/-- Payload of a message: Python `str | bytes`.  Bytes are modelled as a
list of naturals, each intended to be `< 256`. -/
inductive Content where
  | text (s : String)
  | binary (b : List Nat)
  deriving DecidableEq

/-- Immutable representation of a Pulsar message (`StreamMessage` in
`types.py`).  `publish_time` keeps the raw millisecond timestamp: the
`datetime.fromtimestamp` rendering is presentation only and no claim
depends on it. -/
structure StreamMessage where
  message_id : String
  publish_time : Nat
  content : Content
  properties : List (String × String)
  key : Option String := none
  deriving DecidableEq

/-- Connection configuration (`PulsarConfig` in `types.py`): the token is
optional (`NotRequired[str]`). -/
structure PulsarConfig where
  broker_service_url : String
  admin_service_url : String
  token : Option String
  deriving DecidableEq

/-! ## UTF-8 codec model

`decode_content` calls Python's strict `bytes.decode("utf-8")`, which
succeeds exactly on well-formed UTF-8 (no overlong forms, no surrogate
code points, nothing above U+10FFFF) and raises `UnicodeDecodeError`
otherwise.  `utf8Decode` is a faithful model of that strict decoder over
byte lists, returning the decoded code points, or `none` where Python
raises. -/

/-- Completion of a 2-byte sequence with lead byte `b0` (already known to
lie in `0xC2-0xDF`, which rules out overlong forms): checks the
continuation byte and computes the code point. -/
def decode2 (b0 b1 : Nat) : Option Nat :=
  if 0x80 ≤ b1 ∧ b1 < 0xC0 then some ((b0 - 0xC0) * 64 + (b1 - 0x80)) else none

/-- Completion of a 3-byte sequence with lead byte `b0` in `0xE0-0xEF`:
checks both continuation bytes, rejects overlong forms (below U+0800) and
surrogate code points. -/
def decode3 (b0 b1 b2 : Nat) : Option Nat :=
  if (0x80 ≤ b1 ∧ b1 < 0xC0) ∧ (0x80 ≤ b2 ∧ b2 < 0xC0) then
    if 0x800 ≤ (b0 - 0xE0) * 4096 + (b1 - 0x80) * 64 + (b2 - 0x80) ∧
        ((b0 - 0xE0) * 4096 + (b1 - 0x80) * 64 + (b2 - 0x80) < 0xD800 ∨
          0xE000 ≤ (b0 - 0xE0) * 4096 + (b1 - 0x80) * 64 + (b2 - 0x80)) then
      some ((b0 - 0xE0) * 4096 + (b1 - 0x80) * 64 + (b2 - 0x80))
    else none
  else none

/-- Completion of a 4-byte sequence with lead byte `b0` in `0xF0-0xF4`:
checks the three continuation bytes, rejects overlong forms (below
U+10000) and values above U+10FFFF. -/
def decode4 (b0 b1 b2 b3 : Nat) : Option Nat :=
  if (0x80 ≤ b1 ∧ b1 < 0xC0) ∧ (0x80 ≤ b2 ∧ b2 < 0xC0) ∧ (0x80 ≤ b3 ∧ b3 < 0xC0) then
    if 0x10000 ≤ (b0 - 0xF0) * 262144 + (b1 - 0x80) * 4096 + (b2 - 0x80) * 64 + (b3 - 0x80) ∧
        (b0 - 0xF0) * 262144 + (b1 - 0x80) * 4096 + (b2 - 0x80) * 64 + (b3 - 0x80) < 0x110000 then
      some ((b0 - 0xF0) * 262144 + (b1 - 0x80) * 4096 + (b2 - 0x80) * 64 + (b3 - 0x80))
    else none
  else none

/-- First byte and remainder of a byte list, `none` on exhaustion. -/
def splitByte : List Nat → Option (Nat × List Nat)
  | [] => none
  | b :: rest => some (b, rest)

/-- One step of the strict UTF-8 decoder: decode the first scalar value
of the byte list and return it with the unconsumed remainder, or `none`
on a stray continuation byte, invalid lead byte (`0xC0`, `0xC1`,
`0xF5-0xFF`), truncated sequence, bad continuation, overlong form,
surrogate, or value above U+10FFFF — exactly where Python's strict
decoder reports an error. -/
def decodeChar : List Nat → Option (Nat × List Nat)
  | [] => none
  | b0 :: rest =>
    if b0 < 0x80 then some (b0, rest)
    else if b0 < 0xC2 then none
    else if b0 < 0xE0 then
      (splitByte rest).bind (fun q => (decode2 b0 q.1).map (fun cp => (cp, q.2)))
    else if b0 < 0xF0 then
      (splitByte rest).bind (fun q =>
        (splitByte q.2).bind (fun r => (decode3 b0 q.1 r.1).map (fun cp => (cp, r.2))))
    else if b0 < 0xF5 then
      (splitByte rest).bind (fun q =>
        (splitByte q.2).bind (fun r =>
          (splitByte r.2).bind (fun t => (decode4 b0 q.1 r.1 t.1).map (fun cp => (cp, t.2)))))
    else none

/-- Iterated decoding with explicit fuel.  Each decoded scalar consumes
at least one byte, so `l.length` steps always suffice; the fuel is only a
termination device (see `utf8DecodeAux_fuel_irrelevant`). -/
def utf8DecodeAux : Nat → List Nat → Option (List Nat)
  | _, [] => some []
  | 0, _ :: _ => none
  | fuel + 1, b :: bs =>
    match decodeChar (b :: bs) with
    | some p => (utf8DecodeAux fuel p.2).map (fun cs => p.1 :: cs)
    | none => none

/-- Strict UTF-8 decoding of a byte list into Unicode code points.
Returns `none` exactly where Python's `bytes.decode("utf-8")` raises
`UnicodeDecodeError`. -/
def utf8Decode (l : List Nat) : Option (List Nat) :=
  utf8DecodeAux l.length l

/-- UTF-8 encoding of a single Unicode code point. -/
def encodeChar (c : Nat) : List Nat :=
  if c < 0x80 then [c]
  else if c < 0x800 then [0xC0 + c / 64, 0x80 + c % 64]
  else if c < 0x10000 then [0xE0 + c / 4096, 0x80 + c / 64 % 64, 0x80 + c % 64]
  else [0xF0 + c / 262144, 0x80 + c / 4096 % 64, 0x80 + c / 64 % 64, 0x80 + c % 64]

/-- UTF-8 encoding of a character list. -/
def utf8EncodeList : List Char → List Nat
  | [] => []
  | c :: cs => encodeChar c.toNat ++ utf8EncodeList cs

/-- UTF-8 encoding of a string, as the byte list Python's `s.encode()`
produces. -/
def utf8Encode (s : String) : List Nat :=
  utf8EncodeList s.data

/-- The `decode_content` property of `StreamMessage` (`types.py`):
a `str` payload is returned as is; a `bytes` payload is decoded as UTF-8,
falling back to a placeholder naming the byte count when decoding fails. -/
def decode_content (m : StreamMessage) : String :=
  match m.content with
  | .text s => s
  | .binary b =>
    match utf8Decode b with
    | some cs => String.mk (cs.map Char.ofNat)
    | none => "<Binary Data: " ++ toString b.length ++ " bytes>"

/-! ## Configuration resolver (src/main.py, get_config; settings.py) -/

/-- Parsed global command-line flags (`--broker`, `--admin`, `--token`);
`none` when a flag was not supplied.  An explicitly supplied empty string
is `some ""`. -/
structure Args where
  broker : Option String
  admin : Option String
  token : Option String
  deriving DecidableEq

/-- Environment-derived settings (`AppSettings` in `settings.py`): broker
and admin URLs always have a value (defaults exist); the token may be
absent. -/
structure AppSettings where
  broker_service_url : String
  admin_service_url : String
  token : Option String
  deriving DecidableEq

/-- Python's `a or b` where `a` is `str | None` and `b` is `str`: `None`
and the empty string are falsy, so they fall through to `b`. -/
def pyOrStr (a : Option String) (b : String) : String :=
  match a with
  | some s => if s = "" then b else s
  | none => b

/-- Python's `a or b` where both operands are `str | None`. -/
def pyOrOpt (a : Option String) (b : Option String) : Option String :=
  match a with
  | some s => if s = "" then b else some s
  | none => b

/-- Configuration merging (`get_config` in `main.py`): each field is
`args.<flag> or settings.<field>`. -/
def get_config (args : Args) (settings : AppSettings) : PulsarConfig :=
  { broker_service_url := pyOrStr args.broker settings.broker_service_url
    admin_service_url := pyOrStr args.admin settings.admin_service_url
    token := pyOrOpt args.token settings.token }

/-! ## Admin query facade (src/pulsar_listen/client.py)

Each operation issues one GET.  We model the outcome of that GET as an
`HttpResult`: a transport failure (an `httpx.TransportError`, which is an
`httpx.HTTPError`), or a response carrying a status code and an optional
JSON body (a `none` body models a payload that is not valid JSON, where
`response.json()` would raise).  `raise_for_status` raises
`httpx.HTTPStatusError` — also an `httpx.HTTPError` — on every non-2xx
status, and the facade catches `httpx.HTTPError`, logs, and returns `[]`.
The result type `Except String (List String)` separates a normal return
(`Except.ok`) from an exception propagating to the caller
(`Except.error`). -/

/-- Outcome of one admin HTTP GET. -/
inductive HttpResult where
  | transportError (e : String)
  | response (status : Nat) (body : Option (List String))
  deriving DecidableEq

/-- httpx `response.is_success`: a 2xx status. -/
def is_success (status : Nat) : Bool :=
  decide (200 ≤ status) && decide (status < 300)

/-- Request path used by `get_tenants`. -/
def get_tenants_path : String := "/admin/v2/tenants"

/-- Request path used by `get_namespaces`. -/
def get_namespaces_path (tenant : String) : String :=
  "/admin/v2/namespaces/" ++ tenant

/-- Request path used by `get_topics`. -/
def get_topics_path (ns : String) : String :=
  "/admin/v2/namespaces/" ++ ns ++ "/topics"

/-- `PulsarManager.get_tenants`: GET, `raise_for_status`, parse JSON;
any `httpx.HTTPError` (transport failure or non-2xx status) is caught and
maps to an empty list. -/
def get_tenants (r : HttpResult) : Except String (List String) :=
  match r with
  | .transportError _ => .ok []
  | .response status body =>
    if is_success status then
      match body with
      | some tenants => .ok tenants
      | none => .error "JSONDecodeError"
    else .ok []

/-- `PulsarManager.get_namespaces`: same shape as `get_tenants`, on the
per-tenant namespaces path. -/
def get_namespaces (tenant : String) (r : HttpResult) : Except String (List String) :=
  match r with
  | .transportError _ => .ok []
  | .response status body =>
    if is_success status then
      match body with
      | some namespaces => .ok namespaces
      | none => .error "JSONDecodeError"
    else .ok []

/-- `PulsarManager.get_topics`: same shape as `get_tenants`, on the
per-namespace topics path. -/
def get_topics (ns : String) (r : HttpResult) : Except String (List String) :=
  match r with
  | .transportError _ => .ok []
  | .response status body =>
    if is_success status then
      match body with
      | some topics => .ok topics
      | none => .error "JSONDecodeError"
    else .ok []

/-- A failed admin GET: transport error, or any non-2xx status. -/
def is_admin_failure : HttpResult → Bool
  | .transportError _ => true
  | .response status _ => !is_success status

/-! ## Authentication handling (src/pulsar_listen/client.py) -/

/-- `PulsarManager._get_auth_headers`: the walrus-`if` is on Python
truthiness, so an absent token and an empty-string token both yield no
header. -/
def get_auth_headers (config : PulsarConfig) : List (String × String) :=
  match config.token with
  | some token => if token = "" then [] else [("Authorization", "Bearer " ++ token)]
  | none => []

/-- The `authentication` argument `create_listener` passes to
`pulsar.Client`: `AuthenticationToken(token)` when
`self._config.get("token")` is truthy, else `None`.  `some t` models
`AuthenticationToken(t)`, `none` models no authentication. -/
def create_listener_auth (config : PulsarConfig) : Option String :=
  match config.token with
  | some token => if token = "" then none else some token
  | none => none

/-! ## Bounded reader loop (src/pulsar_listen/client.py, message_generator) -/

/-- A native broker message, as `message_generator` consumes it. -/
structure RawMessage where
  message_id : String
  publish_timestamp : Nat
  data : List Nat
  properties : List (String × String)
  partition_key : String

/-- Outcome of one `reader.read_next(timeout_millis=2000)` call: a raw
broker message, or a raised exception (timeout, or any other read
failure). -/
inductive ReadResult where
  | msg (m : RawMessage)
  | exn (e : String)

/-- Translation of a native message into a `StreamMessage`, as built in
the `yield` of `message_generator`. -/
def toStreamMessage (m : RawMessage) : StreamMessage :=
  { message_id := m.message_id
    publish_time := m.publish_timestamp
    content := Content.binary m.data
    properties := m.properties
    key := some m.partition_key }

/-- One reading session's loop, from `count = pos` with `limit - pos`
iterations of budget left (`fuel`).  A successful read yields the
translated message and continues; the first raised read (timeout or other
failure) is caught by the bare `except` and breaks the loop, which is why
the result is a plain list and never an error. -/
def msgGenAux (reads : Nat → ReadResult) : Nat → Nat → List StreamMessage
  | _, 0 => []
  | pos, fuel + 1 =>
    match reads pos with
    | .msg m => toStreamMessage m :: msgGenAux reads (pos + 1) fuel
    | .exn _ => []

/-- The `message_generator` closure of `create_listener`: `count` starts
at `0` and the `while count < limit` loop yields at most
`limit.toNat` messages, stopping early at the first read failure.
`reads n` is the outcome of the `(n+1)`-th `read_next` call. -/
def message_generator (limit : Int) (reads : Nat → ReadResult) : List StreamMessage :=
  msgGenAux reads 0 limit.toNat

/-- Does this read attempt raise (time out or fail)? -/
def isReadFailure : ReadResult → Bool
  | .msg _ => false
  | .exn _ => true

/-! ## Session control flow (src/pulsar_listen/client.py, create_listener)

`create_listener` is a `@contextmanager`.  Its control flow is:

  - `pulsar.Client(...)` inside its own `try` with
    `except Exception: log critical; raise` — so a raised `Exception` is
    logged and re-raised, while a `KeyboardInterrupt` propagates without
    the critical log; either way the inner `try/finally` is never
    entered and no connection exists to release;
  - then `try: reader = client.create_reader(...); yield message_generator()`
    with `except Exception: log; raise` and `finally: client.close()`.

While the caller consumes the generator, control sits at the `yield`;
whatever the caller's `with`-body does (finish normally, raise an
`Exception`, or raise a `KeyboardInterrupt`) re-enters the context
manager at that point and is modelled as the `consume` outcome.
`except Exception` does not catch `KeyboardInterrupt` (a `BaseException`),
which therefore skips the log-and-reraise handler but still runs the
`finally`. -/

/-- Python exception class, at the granularity the handlers distinguish. -/
inductive ExnClass where
  | exception
  | keyboardInterrupt
  deriving DecidableEq

/-- Outcome of a Python computation: normal return or a raised exception. -/
inductive Outcome where
  | ok
  | raised (c : ExnClass)
  deriving DecidableEq

/-- Observable events of a `create_listener` session. -/
inductive Event where
  | createClient
  | logCritical
  | createReader
  | yieldListener
  | logError
  | closeClient
  deriving DecidableEq

/-- A computation's observable trace together with its outcome. -/
structure Comp where
  trace : List Event
  outcome : Outcome
  deriving DecidableEq

/-- The `create_listener` session, parametrised by the outcomes of its
three effectful stages: `connect` (the `pulsar.Client` constructor),
`openReader` (`client.create_reader`), and `consume` (the caller's
consumption of the yielded generator).  The trace records the source's
try/except/finally structure. -/
def create_listener (connect : Outcome) (openReader : Outcome) (consume : Outcome) : Comp :=
  match connect with
  | .raised .exception =>
    { trace := [Event.createClient, Event.logCritical], outcome := .raised .exception }
  | .raised .keyboardInterrupt =>
    { trace := [Event.createClient], outcome := .raised .keyboardInterrupt }
  | .ok =>
    let body : Comp :=
      match openReader with
      | .raised c => { trace := [Event.createClient, Event.createReader], outcome := .raised c }
      | .ok =>
        { trace := [Event.createClient, Event.createReader, Event.yieldListener]
          outcome := consume }
    match body.outcome with
    | .raised .exception =>
      { trace := body.trace ++ [Event.logError, Event.closeClient]
        outcome := .raised .exception }
    | o =>
      { trace := body.trace ++ [Event.closeClient], outcome := o }

/-- Number of `closeClient` events in a trace. -/
def countClose : List Event → Nat
  | [] => 0
  | .closeClient :: es => countClose es + 1
  | _ :: es => countClose es

/-! ## CLI dispatch and exit codes (src/main.py) -/

/-- The `namespace` positional argument of the `topics` subcommand:
`nargs="?"` with default `"public/default"`. -/
def topics_namespace_arg (supplied : Option String) : String :=
  supplied.getD "public/default"

/-- `cmd_listen` wraps its listening loop in
`except KeyboardInterrupt: print(...)` and `except Exception: print(...)`,
so it returns normally whatever the listener session raises. -/
def cmd_listen_outcome : Outcome → Outcome
  | .ok => .ok
  | .raised .exception => .ok
  | .raised .keyboardInterrupt => .ok

/-- The three subcommands of the CLI. -/
inductive Command where
  | tenants
  | topics
  | listen
  deriving DecidableEq

/-- How the process ends: an explicit `sys.exit`, or an exception escaping
`main`. -/
inductive ProcResult where
  | exits (code : Nat)
  | uncaught (c : ExnClass)
  deriving DecidableEq

/-- The exit logic of `main` (`main.py`): configuration construction
(`get_config` plus `PulsarManager(...)`) is wrapped in a `try` whose
handler calls `sys.exit(1)`; afterwards the selected command runs
(`cmd_listen` filtered through its own handlers, the listing commands
returning whatever their body's outcome is), and `sys.exit(0)` follows
when the command returned normally.  `bodyOutcome` is the outcome of the
selected command's body (for `listen`, of the listener session inside
`cmd_listen`). -/
def main_run (configOk : Bool) (cmd : Command) (bodyOutcome : Outcome) : ProcResult :=
  if configOk then
    let cmdOutcome : Outcome :=
      match cmd with
      | .tenants => bodyOutcome
      | .topics => bodyOutcome
      | .listen => cmd_listen_outcome bodyOutcome
    match cmdOutcome with
    | .ok => .exits 0
    | .raised c => .uncaught c
  else .exits 1

/-- Outcome of the tenants command body (`cmd_list_tenants`): it has no
exception handler of its own, so it returns normally when the facade
returns a list, and an exception propagating out of the facade (the
`Except.error` case, e.g. `JSONDecodeError` from a 2xx non-JSON body)
escapes the command. -/
def tenants_body_outcome (r : HttpResult) : Outcome :=
  match get_tenants r with
  | .ok _ => .ok
  | .error _ => .raised .exception

/-- Exit status of the operating-system process.  An explicit `sys.exit`
ends the process with its code.  An ordinary exception escaping `main`
makes CPython print the traceback and end the process with status 1.  An
uncaught `KeyboardInterrupt` terminates the interpreter abnormally (via
the interrupt signal), not through a normal exit status, modelled as
`none`. -/
def process_status : ProcResult → Option Nat
  | .exits code => some code
  | .uncaught .exception => some 1
  | .uncaught .keyboardInterrupt => none

/-! ## Concrete sample data used by witnesses -/

/-- A sample raw broker message. -/
def sampleMsg : RawMessage :=
  { message_id := "(1,2,0,-1)"
    publish_timestamp := 1700000000000
    data := [104, 105]
    properties := [("k", "v")]
    partition_key := "pk" }

/-- A read source whose first attempt succeeds and whose second attempt
times out. -/
def sampleReads : Nat → ReadResult :=
  fun n => if n = 0 then ReadResult.msg sampleMsg else ReadResult.exn "Pulsar error: TimeOut"

/-- A read source that always times out. -/
def timeoutReads : Nat → ReadResult :=
  fun _ => ReadResult.exn "Pulsar error: TimeOut"

/-- A sample stream message holding valid UTF-8 bytes. -/
def sampleUtf8Message : StreamMessage :=
  { message_id := "(1,2,0,-1)"
    publish_time := 1700000000000
    content := Content.binary (utf8Encode "héllo")
    properties := []
    key := none }

/-- A sample stream message holding bytes that are not valid UTF-8. -/
def sampleBinaryMessage : StreamMessage :=
  { message_id := "(1,3,0,-1)"
    publish_time := 1700000000000
    content := Content.binary [0xFF, 0x00, 0x41]
    properties := []
    key := none }

/-! ## Helper lemmas -/

/-- Every Lean character carries a valid Unicode scalar value. -/
theorem char_toNat_isValid (c : Char) : Char.isValidCharNat c.toNat := by
  rcases c.valid with h | ⟨h1, h2⟩
  · exact Or.inl (UInt32.toNat_lt_of_lt (by decide) h)
  · exact Or.inr ⟨UInt32.lt_toNat_of_lt (by decide) h1, UInt32.toNat_lt_of_lt (by decide) h2⟩

/-- Decoding one UTF-8-encoded valid scalar value recovers it and leaves
exactly the remaining bytes unconsumed. -/
theorem decodeChar_encodeChar (c : Nat) (h : Char.isValidCharNat c) (l : List Nat) :
    decodeChar (encodeChar c ++ l) = some (c, l) := by
  rcases h with hval | ⟨hval1, hval2⟩
  all_goals by_cases h1 : c < 0x80
  case pos | pos =>
    rw [show encodeChar c = [c] from by simp only [encodeChar, if_pos h1]]
    simp only [List.cons_append, List.nil_append, decodeChar]
    rw [if_pos h1]
  all_goals by_cases h2 : c < 0x800
  case pos | pos =>
    rw [show encodeChar c = [0xC0 + c / 64, 0x80 + c % 64] from by
      simp only [encodeChar, if_neg h1, if_pos h2]]
    simp only [List.cons_append, List.nil_append, decodeChar, splitByte, Option.some_bind]
    rw [if_neg (by omega : ¬ (0xC0 + c / 64 < 0x80)),
      if_neg (by omega : ¬ (0xC0 + c / 64 < 0xC2)),
      if_pos (by omega : 0xC0 + c / 64 < 0xE0)]
    rw [show decode2 (0xC0 + c / 64) (0x80 + c % 64) = some c from by
      rw [decode2, if_pos (by omega : (0x80 : Nat) ≤ 0x80 + c % 64 ∧ 0x80 + c % 64 < 0xC0)]
      exact congrArg some (by omega)]
    rfl
  all_goals by_cases h3 : c < 0x10000
  case pos | pos =>
    rw [show encodeChar c = [0xE0 + c / 4096, 0x80 + c / 64 % 64, 0x80 + c % 64] from by
      simp only [encodeChar, if_neg h1, if_neg h2, if_pos h3]]
    simp only [List.cons_append, List.nil_append, decodeChar, splitByte, Option.some_bind]
    rw [if_neg (by omega : ¬ (0xE0 + c / 4096 < 0x80)),
      if_neg (by omega : ¬ (0xE0 + c / 4096 < 0xC2)),
      if_neg (by omega : ¬ (0xE0 + c / 4096 < 0xE0)),
      if_pos (by omega : 0xE0 + c / 4096 < 0xF0)]
    rw [show decode3 (0xE0 + c / 4096) (0x80 + c / 64 % 64) (0x80 + c % 64) = some c from by
      rw [decode3,
        if_pos (by omega :
          ((0x80 : Nat) ≤ 0x80 + c / 64 % 64 ∧ 0x80 + c / 64 % 64 < 0xC0) ∧
            ((0x80 : Nat) ≤ 0x80 + c % 64 ∧ 0x80 + c % 64 < 0xC0)),
        show (0xE0 + c / 4096 - 0xE0) * 4096 + (0x80 + c / 64 % 64 - 0x80) * 64 +
            (0x80 + c % 64 - 0x80) = c from by omega,
        if_pos (by omega : (0x800 : Nat) ≤ c ∧ (c < 0xD800 ∨ 0xE000 ≤ c))]]
    rfl
  all_goals
    rw [show encodeChar c =
        [0xF0 + c / 262144, 0x80 + c / 4096 % 64, 0x80 + c / 64 % 64, 0x80 + c % 64] from by
      simp only [encodeChar, if_neg h1, if_neg h2, if_neg h3]]
    simp only [List.cons_append, List.nil_append, decodeChar, splitByte, Option.some_bind]
    rw [if_neg (by omega : ¬ (0xF0 + c / 262144 < 0x80)),
      if_neg (by omega : ¬ (0xF0 + c / 262144 < 0xC2)),
      if_neg (by omega : ¬ (0xF0 + c / 262144 < 0xE0)),
      if_neg (by omega : ¬ (0xF0 + c / 262144 < 0xF0)),
      if_pos (by omega : 0xF0 + c / 262144 < 0xF5)]
    rw [show decode4 (0xF0 + c / 262144) (0x80 + c / 4096 % 64) (0x80 + c / 64 % 64)
          (0x80 + c % 64) = some c from by
      rw [decode4,
        if_pos (by omega :
          ((0x80 : Nat) ≤ 0x80 + c / 4096 % 64 ∧ 0x80 + c / 4096 % 64 < 0xC0) ∧
            ((0x80 : Nat) ≤ 0x80 + c / 64 % 64 ∧ 0x80 + c / 64 % 64 < 0xC0) ∧
            ((0x80 : Nat) ≤ 0x80 + c % 64 ∧ 0x80 + c % 64 < 0xC0)),
        show (0xF0 + c / 262144 - 0xF0) * 262144 + (0x80 + c / 4096 % 64 - 0x80) * 4096 +
            (0x80 + c / 64 % 64 - 0x80) * 64 + (0x80 + c % 64 - 0x80) = c from by omega,
        if_pos (by omega : (0x10000 : Nat) ≤ c ∧ c < 0x110000)]]
    rfl

/-- One decoding step always consumes at least one byte. -/
theorem decodeChar_shrink (l : List Nat) (p : Nat × List Nat)
    (h : decodeChar l = some p) : p.2.length < l.length := by
  match l with
  | [] => simp [decodeChar] at h
  | b0 :: rest =>
    simp only [decodeChar] at h
    split_ifs at h with h1 h2 h3 h4 h5
    · cases h
      simp
    · cases rest with
      | nil => simp [splitByte] at h
      | cons b1 r1 =>
        simp only [splitByte, Option.some_bind] at h
        cases hd : decode2 b0 b1 with
        | none => rw [hd] at h; simp at h
        | some cp =>
          rw [hd] at h
          cases h
          simp
          omega
    · cases rest with
      | nil => simp [splitByte] at h
      | cons b1 r1 =>
        cases r1 with
        | nil => simp [splitByte] at h
        | cons b2 r2 =>
          simp only [splitByte, Option.some_bind] at h
          cases hd : decode3 b0 b1 b2 with
          | none => rw [hd] at h; simp at h
          | some cp =>
            rw [hd] at h
            cases h
            simp
            omega
    · cases rest with
      | nil => simp [splitByte] at h
      | cons b1 r1 =>
        cases r1 with
        | nil => simp [splitByte] at h
        | cons b2 r2 =>
          cases r2 with
          | nil => simp [splitByte] at h
          | cons b3 r3 =>
            simp only [splitByte, Option.some_bind] at h
            cases hd : decode4 b0 b1 b2 b3 with
            | none => rw [hd] at h; simp at h
            | some cp =>
              rw [hd] at h
              cases h
              simp
              omega

/-- The fuel of `utf8DecodeAux` is irrelevant as soon as it covers the
length of the byte list. -/
theorem utf8DecodeAux_fuel_irrelevant (fuel fuel' : Nat) (l : List Nat)
    (h : l.length ≤ fuel) (h' : l.length ≤ fuel') :
    utf8DecodeAux fuel l = utf8DecodeAux fuel' l := by
  induction fuel generalizing fuel' l with
  | zero =>
    have : l = [] := List.eq_nil_of_length_eq_zero (Nat.le_zero.mp h)
    subst this
    cases fuel' <;> rfl
  | succ k ih =>
    cases l with
    | nil => cases fuel' <;> rfl
    | cons b bs =>
      cases fuel' with
      | zero => simp at h'
      | succ k' =>
        simp only [utf8DecodeAux]
        cases hd : decodeChar (b :: bs) with
        | none => rfl
        | some p =>
          have hs := decodeChar_shrink (b :: bs) p hd
          simp only [List.length_cons] at hs h h'
          dsimp only
          rw [ih k' p.2 (by omega) (by omega)]

/-- Fuel-free step characterisation of `utf8Decode` on a nonempty list:
decode one scalar value, then decode the rest. -/
theorem utf8Decode_step (b : Nat) (bs : List Nat) :
    utf8Decode (b :: bs) =
      match decodeChar (b :: bs) with
      | some p => (utf8Decode p.2).map (fun cs => p.1 :: cs)
      | none => none := by
  unfold utf8Decode
  simp only [List.length_cons, utf8DecodeAux]
  cases hd : decodeChar (b :: bs) with
  | none => rfl
  | some p =>
    have hs := decodeChar_shrink (b :: bs) p hd
    simp only [List.length_cons] at hs
    dsimp only
    rw [utf8DecodeAux_fuel_irrelevant bs.length p.2.length p.2 (by omega) (Nat.le_refl _)]

/-- The UTF-8 encoding of a code point is never empty. -/
theorem encodeChar_ne_nil (c : Nat) : encodeChar c ≠ [] := by
  unfold encodeChar
  split_ifs <;> simp

/-- Decoding the UTF-8 encoding of a character list yields exactly its
code points. -/
theorem utf8Decode_encodeList (cs : List Char) :
    utf8Decode (utf8EncodeList cs) = some (cs.map Char.toNat) := by
  induction cs with
  | nil => rfl
  | cons c cs ih =>
    simp only [utf8EncodeList, List.map_cons]
    cases henc : encodeChar c.toNat with
    | nil => exact absurd henc (encodeChar_ne_nil c.toNat)
    | cons b bs =>
      rw [List.cons_append, utf8Decode_step b (bs ++ utf8EncodeList cs),
        ← List.cons_append, ← henc,
        decodeChar_encodeChar c.toNat (char_toNat_isValid c) (utf8EncodeList cs)]
      dsimp only
      rw [ih]
      rfl

/-- Decoding the UTF-8 encoding of a string yields its code points. -/
theorem utf8Decode_utf8Encode (s : String) :
    utf8Decode (utf8Encode s) = some (s.data.map Char.toNat) :=
  utf8Decode_encodeList s.data

/-- The reader loop never yields more messages than its remaining fuel. -/
theorem msgGenAux_length_le (reads : Nat → ReadResult) :
    ∀ (fuel pos : Nat), (msgGenAux reads pos fuel).length ≤ fuel := by
  intro fuel
  induction fuel with
  | zero => intro pos; simp [msgGenAux]
  | succ n ih =>
    intro pos
    cases h : reads pos with
    | msg m =>
      simp only [msgGenAux, h, List.length_cons]
      exact Nat.succ_le_succ (ih (pos + 1))
    | exn e => simp [msgGenAux, h]

/-- If the reader loop stops with fuel to spare, the very next read
attempt was a failure. -/
theorem msgGenAux_stops_on_failure (reads : Nat → ReadResult) :
    ∀ (fuel pos : Nat), (msgGenAux reads pos fuel).length < fuel →
      isReadFailure (reads (pos + (msgGenAux reads pos fuel).length)) = true := by
  intro fuel
  induction fuel with
  | zero => intro pos hlt; omega
  | succ n ih =>
    intro pos hlt
    cases h : reads pos with
    | msg m =>
      simp only [msgGenAux, h, List.length_cons] at hlt ⊢
      have hlt' : (msgGenAux reads (pos + 1) n).length < n := by omega
      have := ih (pos + 1) hlt'
      rw [show pos + ((msgGenAux reads (pos + 1) n).length + 1) =
        pos + 1 + (msgGenAux reads (pos + 1) n).length from by omega]
      exact this
    | exn e => simp [msgGenAux, h, isReadFailure]

/-- With a read source whose first `k` attempts succeed and whose
`(k+1)`-th attempt raises, the loop started at position `pos ≤ k` yields
exactly the translations of the next `min (k - pos) fuel` messages. -/
theorem msgGenAux_first_failure (reads : Nat → ReadResult) (msgs : Nat → RawMessage)
    (k : Nat) (e : String) (hfail : reads k = ReadResult.exn e)
    (hok : ∀ j, j < k → reads j = ReadResult.msg (msgs j)) :
    ∀ (fuel pos : Nat), pos ≤ k →
      msgGenAux reads pos fuel =
        (List.range' pos (min (k - pos) fuel)).map (fun j => toStreamMessage (msgs j)) := by
  intro fuel
  induction fuel with
  | zero => intro pos _; simp [msgGenAux]
  | succ n ih =>
    intro pos hpos
    by_cases hlt : pos < k
    · rw [show min (k - pos) (n + 1) = min (k - (pos + 1)) n + 1 from by omega,
        List.range'_succ, List.map_cons]
      simp only [msgGenAux, hok pos hlt]
      rw [ih (pos + 1) (by omega)]
    · have hk : pos = k := by omega
      subst hk
      simp only [msgGenAux, hfail]
      rw [show min (pos - pos) (n + 1) = 0 from by omega]
      rfl

/-! ## Claim theorems -/

/-- Claim C1: for every limit at least 0, one reading session created by
`create_listener` yields at most `limit` stream messages, and a session
produces fewer than the limit only if a read attempt fails or times out
(the read attempt right after the produced messages raised). -/
theorem reader_respects_limit (limit : Int) (reads : Nat → ReadResult) (h : 0 ≤ limit) :
    ((message_generator limit reads).length : Int) ≤ limit ∧
    ((message_generator limit reads).length < limit.toNat →
      isReadFailure (reads (message_generator limit reads).length) = true) := by
  constructor
  · have h1 := msgGenAux_length_le reads limit.toNat 0
    have h2 : ((limit.toNat : Nat) : Int) = limit := Int.toNat_of_nonneg h
    unfold message_generator
    omega
  · intro hlt
    have := msgGenAux_stops_on_failure reads limit.toNat 0 hlt
    simpa [message_generator] using this

/-- Claim C1 witness: limit 2 against an always-timing-out source. -/
theorem reader_respects_limit_witness :
    (0 : Int) ≤ 2 ∧ ((message_generator 2 timeoutReads).length : Int) ≤ 2 ∧
    isReadFailure (timeoutReads (message_generator 2 timeoutReads).length) = true :=
  ⟨by decide, (reader_respects_limit 2 timeoutReads (by decide)).1,
    (reader_respects_limit 2 timeoutReads (by decide)).2 (by decide)⟩

/-- Claim C2: each admin facade operation (`get_tenants`,
`get_namespaces`, `get_topics`), for any non-success HTTP status or
transport failure, returns an empty list and raises nothing to its
caller. -/
theorem admin_failure_yields_empty (r : HttpResult) (tenant ns : String)
    (h : is_admin_failure r = true) :
    get_tenants r = Except.ok [] ∧
    get_namespaces tenant r = Except.ok [] ∧
    get_topics ns r = Except.ok [] := by
  rcases r with e | ⟨status, body⟩
  · exact ⟨rfl, rfl, rfl⟩
  · simp only [is_admin_failure, Bool.not_eq_true'] at h
    simp [get_tenants, get_namespaces, get_topics, h]

/-- Claim C2 witness: a 404 response. -/
theorem admin_failure_yields_empty_witness :
    is_admin_failure (HttpResult.response 404 none) = true ∧
    get_tenants (HttpResult.response 404 none) = Except.ok [] ∧
    get_namespaces "public" (HttpResult.response 404 none) = Except.ok [] ∧
    get_topics "public/default" (HttpResult.response 404 none) = Except.ok [] :=
  ⟨rfl, admin_failure_yields_empty (HttpResult.response 404 none) "public" "public/default" rfl⟩

/-- Claim C3: in every `create_listener` session (the broker client was
created), the connection release step `client.close` executes exactly
once, on every exit path: normal completion, timeout-induced stop (a
normal generator return), error during reader creation or reading, and
caller-initiated early termination such as a keyboard interrupt
mid-stream. -/
theorem close_executes_exactly_once (openReader consume : Outcome) :
    countClose (create_listener Outcome.ok openReader consume).trace = 1 := by
  rcases openReader with _ | (_ | _) <;> rcases consume with _ | (_ | _) <;> rfl

/-- Claim C4: each field of the configuration produced by `get_config`
equals the override when the override is present and non-empty, and the
environment default otherwise. -/
theorem get_config_override_precedence (args : Args) (settings : AppSettings) :
    ((∀ s, args.broker = some s → s ≠ "" →
        (get_config args settings).broker_service_url = s) ∧
      (args.broker = none ∨ args.broker = some "" →
        (get_config args settings).broker_service_url = settings.broker_service_url)) ∧
    ((∀ s, args.admin = some s → s ≠ "" →
        (get_config args settings).admin_service_url = s) ∧
      (args.admin = none ∨ args.admin = some "" →
        (get_config args settings).admin_service_url = settings.admin_service_url)) ∧
    ((∀ s, args.token = some s → s ≠ "" →
        (get_config args settings).token = some s) ∧
      (args.token = none ∨ args.token = some "" →
        (get_config args settings).token = settings.token)) := by
  refine ⟨⟨?_, ?_⟩, ⟨?_, ?_⟩, ⟨?_, ?_⟩⟩
  · intro s hs hne
    simp [get_config, pyOrStr, hs, hne]
  · rintro (h | h) <;> simp [get_config, pyOrStr, h]
  · intro s hs hne
    simp [get_config, pyOrStr, hs, hne]
  · rintro (h | h) <;> simp [get_config, pyOrStr, h]
  · intro s hs hne
    simp [get_config, pyOrOpt, hs, hne]
  · rintro (h | h) <;> simp [get_config, pyOrOpt, h]

/-- Claim C4 witness: a non-empty broker override wins, a missing admin
override and an explicitly empty token override fall back to the
environment defaults. -/
theorem get_config_override_precedence_witness :
    (get_config (Args.mk (some "pulsar://cli:6650") none (some ""))
        (AppSettings.mk "pulsar://env:6650" "http://env:8080" (some "envtok"))).broker_service_url
      = "pulsar://cli:6650" ∧
    (get_config (Args.mk (some "pulsar://cli:6650") none (some ""))
        (AppSettings.mk "pulsar://env:6650" "http://env:8080" (some "envtok"))).admin_service_url
      = "http://env:8080" ∧
    (get_config (Args.mk (some "pulsar://cli:6650") none (some ""))
        (AppSettings.mk "pulsar://env:6650" "http://env:8080" (some "envtok"))).token
      = some "envtok" := by
  refine ⟨?_, ?_, ?_⟩
  · exact (get_config_override_precedence _ _).1.1 _ rfl (by decide)
  · exact (get_config_override_precedence _ _).2.1.2 (Or.inl rfl)
  · exact (get_config_override_precedence _ _).2.2.2 (Or.inr rfl)

/-- Claim C5: `decode_content` on a bytes payload that is the UTF-8
encoding of a text returns exactly that text, and on a bytes payload that
is not valid UTF-8 returns the placeholder naming the exact byte count
instead of raising. -/
theorem decode_content_spec :
    (∀ (m : StreamMessage) (s : String), m.content = Content.binary (utf8Encode s) →
      decode_content m = s) ∧
    (∀ (m : StreamMessage) (b : List Nat), m.content = Content.binary b →
      utf8Decode b = none →
      decode_content m = "<Binary Data: " ++ toString b.length ++ " bytes>") := by
  constructor
  · intro m s hm
    simp only [decode_content, hm, utf8Decode_utf8Encode s]
    simp only [List.map_map]
    have hid : (Char.ofNat ∘ Char.toNat) = id := by
      funext ch
      simp [Function.comp]
    rw [hid, List.map_id]
  · intro m b hm hd
    simp only [decode_content, hm, hd]

/-- Claim C5 witness: valid UTF-8 bytes round-trip, three invalid bytes
give the three-byte placeholder. -/
theorem decode_content_spec_witness :
    decode_content sampleUtf8Message = "héllo" ∧
    decode_content sampleBinaryMessage = "<Binary Data: 3 bytes>" := by
  constructor
  · exact decode_content_spec.1 sampleUtf8Message "héllo" rfl
  · have h := decode_content_spec.2 sampleBinaryMessage [0xFF, 0x00, 0x41] rfl rfl
    rw [h]
    rfl

/-- Claim C6: the first read attempt that raises (timeout or any other
failure) stops the loop immediately — the session yields exactly the
messages read before the failure, truncated at the limit, and nothing
after it — and the session still ends as a normal return, not an error
surfaced to the caller. -/
theorem read_failure_is_end_of_stream (limit : Int) (reads : Nat → ReadResult)
    (msgs : Nat → RawMessage) (k : Nat) (e : String)
    (hfail : reads k = ReadResult.exn e)
    (hok : ∀ j, j < k → reads j = ReadResult.msg (msgs j)) :
    message_generator limit reads =
      (List.range' 0 (min k limit.toNat)).map (fun j => toStreamMessage (msgs j)) ∧
    (create_listener Outcome.ok Outcome.ok Outcome.ok).outcome = Outcome.ok := by
  constructor
  · have := msgGenAux_first_failure reads msgs k e hfail hok limit.toNat 0 (Nat.zero_le k)
    unfold message_generator
    simpa using this
  · rfl

/-- Claim C6 witness: one good message, then a timeout, with limit 3. -/
theorem read_failure_is_end_of_stream_witness :
    message_generator 3 sampleReads = [toStreamMessage sampleMsg] ∧
    (create_listener Outcome.ok Outcome.ok Outcome.ok).outcome = Outcome.ok := by
  have h := read_failure_is_end_of_stream 3 sampleReads (fun _ => sampleMsg) 1
    "Pulsar error: TimeOut" rfl (fun j hj => by
      have hj0 : j = 0 := by omega
      subst hj0
      rfl)
  refine ⟨?_, h.2⟩
  rw [h.1]
  rfl

/-- Claim C7 counterexample: with a perfectly fine configuration, the
tenants command against an admin server answering 2xx with a body that
is not valid JSON raises `JSONDecodeError` past the facade (which only
catches `httpx.HTTPError`); it escapes `main`, whose `try` around the
dispatch has no `except`, and CPython ends the process with status 1 —
the same status as a configuration failure and not status 0, so exit
status 1 does not occur exactly on configuration failure. -/
theorem exit_status_not_exclusive_to_config_failure :
    get_tenants (HttpResult.response 200 none) = Except.error "JSONDecodeError" ∧
    tenants_body_outcome (HttpResult.response 200 none) = Outcome.raised ExnClass.exception ∧
    main_run true Command.tenants (tenants_body_outcome (HttpResult.response 200 none)) =
      ProcResult.uncaught ExnClass.exception ∧
    process_status (main_run true Command.tenants
      (tenants_body_outcome (HttpResult.response 200 none))) = some 1 ∧
    process_status (main_run true Command.tenants
      (tenants_body_outcome (HttpResult.response 200 none))) ≠ some 0 :=
  ⟨rfl, rfl, rfl, rfl, by decide⟩

/-- Claim C7 (amended): configuration failure ends the process with
status 1; the listen command ends it with status 0 whatever the listener
session did (keyboard interrupt and fatal broker errors are both
swallowed by `cmd_listen`), and so does every command whose body returns
normally; but status 1 is not exclusive to configuration failure: a
listing command whose body raises an ordinary exception — such as
`JSONDecodeError` from a 2xx non-JSON admin response — escapes `main`
and also ends the process with status 1. -/
theorem exit_code_amended :
    (∀ (cmd : Command) (o : Outcome),
      process_status (main_run false cmd o) = some 1) ∧
    (∀ (o : Outcome), process_status (main_run true Command.listen o) = some 0) ∧
    (∀ (cmd : Command), process_status (main_run true cmd Outcome.ok) = some 0) ∧
    (∀ (r : HttpResult), tenants_body_outcome r = Outcome.raised ExnClass.exception →
      process_status (main_run true Command.tenants (tenants_body_outcome r)) = some 1) := by
  refine ⟨fun cmd o => rfl, fun o => ?_, fun cmd => ?_, fun r h => ?_⟩
  · rcases o with _ | (_ | _) <;> rfl
  · rcases cmd <;> rfl
  · rw [h]
    rfl

/-- Claim C7 amended witness: concrete runs of all four parts, the last
at the 2xx non-JSON response. -/
theorem exit_code_amended_witness :
    process_status (main_run false Command.tenants Outcome.ok) = some 1 ∧
    process_status (main_run true Command.listen
      (Outcome.raised ExnClass.keyboardInterrupt)) = some 0 ∧
    process_status (main_run true Command.topics Outcome.ok) = some 0 ∧
    process_status (main_run true Command.tenants
      (tenants_body_outcome (HttpResult.response 200 none))) = some 1 :=
  ⟨exit_code_amended.1 Command.tenants Outcome.ok,
    exit_code_amended.2.1 (Outcome.raised ExnClass.keyboardInterrupt),
    exit_code_amended.2.2.1 Command.topics,
    exit_code_amended.2.2.2 (HttpResult.response 200 none) rfl⟩

/-- Claim C8: the topics command with no namespace argument queries
exactly the public/default namespace. -/
theorem topics_default_namespace :
    topics_namespace_arg none = "public/default" ∧
    get_topics_path (topics_namespace_arg none) = "/admin/v2/namespaces/public/default/topics" :=
  ⟨rfl, rfl⟩

/-- Claim C9: a configuration whose token is the empty string behaves
exactly like one with no token at all: no Authorization header is built,
and `create_listener` passes no authentication to the broker client. -/
theorem empty_token_no_auth (broker admin : String) :
    get_auth_headers (PulsarConfig.mk broker admin (some "")) =
      get_auth_headers (PulsarConfig.mk broker admin none) ∧
    get_auth_headers (PulsarConfig.mk broker admin (some "")) = [] ∧
    create_listener_auth (PulsarConfig.mk broker admin (some "")) =
      create_listener_auth (PulsarConfig.mk broker admin none) ∧
    create_listener_auth (PulsarConfig.mk broker admin (some "")) = none :=
  ⟨rfl, rfl, rfl, rfl⟩

/-- Claim C10: for every negative limit the reader loop body never runs —
the session yields no messages for any read source — while the broker
client is still created and released exactly once. -/
theorem negative_limit_session (limit : Int) (reads : Nat → ReadResult) (h : limit < 0) :
    message_generator limit reads = [] ∧
    Event.createClient ∈ (create_listener Outcome.ok Outcome.ok Outcome.ok).trace ∧
    countClose (create_listener Outcome.ok Outcome.ok Outcome.ok).trace = 1 := by
  refine ⟨?_, by decide, rfl⟩
  unfold message_generator
  rw [show limit.toNat = 0 from by omega]
  rfl

/-- Claim C10 witness: limit -5. -/
theorem negative_limit_session_witness :
    message_generator (-5) timeoutReads = [] ∧
    Event.createClient ∈ (create_listener Outcome.ok Outcome.ok Outcome.ok).trace ∧
    countClose (create_listener Outcome.ok Outcome.ok Outcome.ok).trace = 1 :=
  negative_limit_session (-5) timeoutReads (by decide)

end PulsarLive
